import Mathlib

/-!
Shallow embedding of the Orion MCP client (orion_mcp_client.py).

The client opens a streaming connection to an MCP server, performs the
handshake, sends one tool call (or one discovery call) per session, and
decodes the response content into a typed result.  The external transport
library (streamable HTTP client plus `ClientSession`) is modelled as an
oracle (`Transport`) describing what the outside world does on this call:
whether the connection and handshake succeed, what the server answers to a
tool call, and which tools/resources it advertises.  The Python method
bodies of `_call_tool`, `list_tools` and `list_resources` are translated
directly on top of that oracle.
-/

namespace OrionMCP

/-- Parsed JSON values, the possible outputs of the external JSON parser
(`json.loads`).  The parser itself is a Python library function, so the
decoding functions below are parameterised over an arbitrary parser
`String → Option JSONVal` (`none` models a `JSONDecodeError`). -/
inductive JSONVal : Type where
  | null : JSONVal
  | bool (b : Bool) : JSONVal
  | num (n : Int) : JSONVal
  | str (s : String) : JSONVal
  | arr (elems : List JSONVal) : JSONVal
  | obj (fields : List (String × JSONVal)) : JSONVal

/-- A parameter bag: the caller-supplied mapping from parameter names to
values, in insertion order (Python `Dict[str, Any]`; the per-tool wrappers
only ever put strings in it). -/
abbrev ParamBag := List (String × String)

/-- One content block of a response.  `text = some t` models a block with a
`text` attribute (`hasattr(content, 'text')`), `data = some d` a block with
a `data` attribute, `mimeType` the optional MIME type attribute. -/
structure ContentBlock : Type where
  text : Option String
  data : Option String
  mimeType : Option String
  deriving Repr, DecidableEq

/-- The response envelope returned by `session.call_tool`: an ordered list
of content blocks plus the `isError` flag with which an MCP server reports
a tool-level failure inside an otherwise well-formed result. -/
structure CallToolResult : Type where
  content : List ContentBlock
  isError : Bool
  deriving Repr, DecidableEq

/-- The decoded outcome of `_call_tool`: parsed JSON, raw text, the image
dictionary built on lines 76-80 of the source, or the unprocessed envelope
(`return result`, line 82). -/
inductive ToolResult : Type where
  | jsonValue (v : JSONVal) : ToolResult
  | textValue (s : String) : ToolResult
  | imageValue (data : String) (mimeType : String) : ToolResult
  | rawValue (envelope : CallToolResult) : ToolResult

/-- The request envelope: `request_data = {"params": params or {}}`.  The
`params` field is a structure field, hence present in every envelope. -/
structure Envelope : Type where
  params : ParamBag
  deriving Repr, DecidableEq

/-- Outcome of opening the stream and running `session.initialize()`:
either the connection/handshake raises, or it yields the (optional)
server-assigned session id returned by `get_session_id()`. -/
inductive ConnectOutcome : Type where
  | connError : ConnectOutcome
  | connected (session_id : Option String) : ConnectOutcome
  deriving Repr, DecidableEq

/-- Outcome of `session.call_tool`: the library raises an MCP error
carrying the message of a JSON-RPC error response, or it returns the
response envelope. -/
inductive CallOutcome : Type where
  | mcpError (message : String) : CallOutcome
  | result (r : CallToolResult) : CallOutcome

/-- A tool advertised by the server (fields read by `list_tools`). -/
structure MCPTool : Type where
  name : String
  description : Option String
  inputSchema : String
  deriving Repr, DecidableEq

/-- A resource advertised by the server (fields read by `list_resources`). -/
structure MCPResource : Type where
  uri : String
  name : String
  description : Option String
  deriving Repr, DecidableEq

/-- The oracle for the external transport library on one call: the outcome
of connect plus handshake, the server's reply to a tool call, and the
advertised tool/resource collections. -/
structure Transport : Type where
  connect : ConnectOutcome
  callTool : String → Envelope → CallOutcome
  toolsOnServer : List MCPTool
  resourcesOnServer : List MCPResource

/-- The client state: `__init__` sets `server_url`, `mcp_url` and a null
`session_id`. -/
structure OrionMCPClient : Type where
  server_url : String
  mcp_url : String
  session_id : Option String
  deriving Repr, DecidableEq

/-- Constructor `__init__`: `self.mcp_url = f"<server_url>/mcp"`. -/
def OrionMCPClient.init (server_url : String) : OrionMCPClient :=
  { server_url := server_url
    mcp_url := server_url ++ "/mcp"
    session_id := none }

/-- Errors a call can raise: a connection/handshake failure, or the MCP
error raised by the session layer (the spec's ToolError). -/
inductive CallError : Type where
  | connectionError : CallError
  | toolError (message : String) : CallError
  deriving Repr, DecidableEq

/-- Line 54: `request_data = {"params": params or {}}`.  Python `or`
returns the right operand when the left is falsy, and both `None` and the
empty dict are falsy. -/
def request_data (params : Option ParamBag) : Envelope :=
  { params :=
      match params with
      | none => []
      | some d => if d.isEmpty then [] else d }

/-- Lines 63-82: classification of the response envelope.  Nonempty content
list: inspect `result.content[0]`; a `text` attribute wins over `data`
(the `elif`); `json.loads` failure falls back to the raw text; a missing
`mimeType` defaults to `image/jpeg`; everything else returns the envelope
itself. -/
def decode_result (parse : String → Option JSONVal) (result : CallToolResult) :
    ToolResult :=
  match result.content with
  | content :: _ =>
    match content.text with
    | some t =>
      match parse t with
      | some v => ToolResult.jsonValue v
      | none => ToolResult.textValue t
    | none =>
      match content.data with
      | some d => ToolResult.imageValue d (content.mimeType.getD "image/jpeg")
      | none => ToolResult.rawValue result
  | [] => ToolResult.rawValue result

/-- Lines 40-82, `_call_tool`: connect and handshake (any failure there
propagates before a request is sent), record the session id, build the
request envelope, send it, and decode the reply.  Returns the updated
client state, the list of tool requests actually sent on the wire, and the
outcome. -/
def call_tool (parse : String → Option JSONVal) (t : Transport)
    (self : OrionMCPClient) (tool_name : String) (params : Option ParamBag) :
    OrionMCPClient × List (String × Envelope) × Except CallError ToolResult :=
  match t.connect with
  | ConnectOutcome.connError => (self, [], Except.error CallError.connectionError)
  | ConnectOutcome.connected sid =>
    let self := { self with session_id := sid }
    let rd := request_data params
    match t.callTool tool_name rd with
    | CallOutcome.mcpError msg =>
      (self, [(tool_name, rd)], Except.error (CallError.toolError msg))
    | CallOutcome.result r =>
      (self, [(tool_name, rd)], Except.ok (decode_result parse r))

/-- Descriptor built by `list_tools` for each advertised tool. -/
structure ToolDescriptor : Type where
  name : String
  description : Option String
  inputSchema : String
  deriving Repr, DecidableEq

/-- Descriptor built by `list_resources` for each advertised resource. -/
structure ResourceDescriptor : Type where
  uri : String
  name : String
  description : Option String
  deriving Repr, DecidableEq

/-- Lines 282-306, `list_tools`: fresh session, record the session id, then
map the server's tool list into descriptor dictionaries in order. -/
def list_tools (t : Transport) (self : OrionMCPClient) :
    OrionMCPClient × Except CallError (List ToolDescriptor) :=
  match t.connect with
  | ConnectOutcome.connError => (self, Except.error CallError.connectionError)
  | ConnectOutcome.connected sid =>
    ({ self with session_id := sid },
      Except.ok (t.toolsOnServer.map fun tool =>
        { name := tool.name
          description := tool.description
          inputSchema := tool.inputSchema }))

/-- Lines 308-332, `list_resources`: fresh session, record the session id,
then map the server's resource list into descriptor dictionaries in
order. -/
def list_resources (t : Transport) (self : OrionMCPClient) :
    OrionMCPClient × Except CallError (List ResourceDescriptor) :=
  match t.connect with
  | ConnectOutcome.connError => (self, Except.error CallError.connectionError)
  | ConnectOutcome.connected sid =>
    ({ self with session_id := sid },
      Except.ok (t.resourcesOnServer.map fun r =>
        { uri := r.uri
          name := r.name
          description := r.description }))

/-- Lines 140-150, `openshift_report_on`: five mandatory keys; `since` is
added only when it is truthy (`if since:`), i.e. neither `None` nor the
empty string. -/
def openshift_report_on_params (versions lookback : String)
    (since : Option String) (metric config options : String) : ParamBag :=
  let params := [("versions", versions), ("lookback", lookback),
    ("metric", metric), ("config", config), ("options", options)]
  match since with
  | none => params
  | some s => if s.isEmpty then params else params ++ [("since", s)]

/-- Lines 244-254, `metrics_correlation`: five mandatory keys; `since` is
added only when truthy, as above. -/
def metrics_correlation_params (metric1 metric2 config : String)
    (since : Option String) (version lookback : String) : ParamBag :=
  let params := [("metric1", metric1), ("metric2", metric2),
    ("config", config), ("version", version), ("lookback", lookback)]
  match since with
  | none => params
  | some s => if s.isEmpty then params else params ++ [("since", s)]

/-- Lines 275-280, `has_nightly_regressed`: all four keys are always sent,
including `previous_nightly` and `configs` at their defaults `""`. -/
def has_nightly_regressed_params (nightly_version previous_nightly
    lookback configs : String) : ParamBag :=
  [("nightly_version", nightly_version),
    ("previous_nightly", previous_nightly),
    ("lookback", lookback),
    ("configs", configs)]

/-- C1: when the first content block of the response carries a textual
payload, `_call_tool` returns the parsed JSON value if the parser succeeds
and the raw text verbatim if it fails; in both cases the call succeeds
(`Except.ok`), so a parse failure never propagates to the caller. -/
theorem call_tool_text_decoding (parse : String → Option JSONVal)
    (t : Transport) (self : OrionMCPClient) (tool_name : String)
    (params : Option ParamBag) (sid : Option String) (r : CallToolResult)
    (blk : ContentBlock) (rest : List ContentBlock) (txt : String)
    (hc : t.connect = ConnectOutcome.connected sid)
    (hr : t.callTool tool_name (request_data params) = CallOutcome.result r)
    (hb : r.content = blk :: rest) (ht : blk.text = some txt) :
    (call_tool parse t self tool_name params).2.2 =
      Except.ok (match parse txt with
        | some v => ToolResult.jsonValue v
        | none => ToolResult.textValue txt) := by
  cases hp : parse txt <;>
    simp [call_tool, hc, hr, decode_result, hb, ht, hp]

/-- Witness for C1: a server answering the non-JSON text `2024-06-01`
yields a successful `textValue` with that exact text. -/
theorem call_tool_text_decoding_witness :
    (call_tool (fun _ => none)
        { connect := ConnectOutcome.connected (some "abc")
          callTool := fun _ _ => CallOutcome.result
            { content := [{ text := some "2024-06-01", data := none, mimeType := none }]
              isError := false }
          toolsOnServer := []
          resourcesOnServer := [] }
        (OrionMCPClient.init "http://localhost:3030") "get_release_date"
        (some [("version", "4.20")])).2.2 =
      Except.ok (ToolResult.textValue "2024-06-01") :=
  call_tool_text_decoding (fun _ => none) _ _ _ _ (some "abc") _ _ [] _
    rfl rfl rfl rfl

/-- C2: whenever the connection succeeds, exactly one request is sent, for
the requested tool, and its envelope carries a `params` field equal to the
caller's bag, with `None` replaced by the empty mapping; the field is a
structure field of `Envelope`, hence never omitted. -/
theorem call_tool_sends_params_field (parse : String → Option JSONVal)
    (t : Transport) (self : OrionMCPClient) (tool_name : String)
    (params : Option ParamBag) (sid : Option String)
    (hc : t.connect = ConnectOutcome.connected sid) :
    (call_tool parse t self tool_name params).2.1 =
      [(tool_name, Envelope.mk (params.getD []))] := by
  have hrd : request_data params = Envelope.mk (params.getD []) := by
    cases params with
    | none => rfl
    | some d => cases d <;> rfl
  cases hco : t.callTool tool_name (request_data params) <;>
    simp [call_tool, hc, hco, hrd] <;>
    simp [hrd] at hco <;> simp [hco]

/-- Witness for C2: a call with no parameter bag sends one envelope whose
`params` field is the empty mapping. -/
theorem call_tool_sends_params_field_witness :
    (call_tool (fun _ => none)
        { connect := ConnectOutcome.connected none
          callTool := fun _ _ => CallOutcome.result { content := [], isError := false }
          toolsOnServer := []
          resourcesOnServer := [] }
        (OrionMCPClient.init "http://localhost:3030") "get_orion_configs"
        none).2.1 =
      [("get_orion_configs", Envelope.mk [])] :=
  call_tool_sends_params_field (fun _ => none) _ _ _ none none rfl

/-- C4: when opening the connection or the handshake fails, the call fails
with `connectionError`, no tool request is sent, and the error is never the
`toolError` kind. -/
theorem call_tool_connection_failure (parse : String → Option JSONVal)
    (t : Transport) (self : OrionMCPClient) (tool_name : String)
    (params : Option ParamBag)
    (hc : t.connect = ConnectOutcome.connError) :
    (call_tool parse t self tool_name params).2.2 =
        Except.error CallError.connectionError ∧
    (call_tool parse t self tool_name params).2.1 = [] ∧
    ∀ msg, (call_tool parse t self tool_name params).2.2 ≠
        Except.error (CallError.toolError msg) := by
  simp [call_tool, hc]

/-- Witness for C4: a refused connection yields `connectionError` with an
empty list of sent requests. -/
theorem call_tool_connection_failure_witness :
    (call_tool (fun _ => none)
        { connect := ConnectOutcome.connError
          callTool := fun _ _ => CallOutcome.result { content := [], isError := false }
          toolsOnServer := []
          resourcesOnServer := [] }
        (OrionMCPClient.init "http://localhost:3030") "get_release_date"
        (some [("version", "4.20")])).2.2 =
      Except.error CallError.connectionError :=
  (call_tool_connection_failure (fun _ => none) _ _ _ _ rfl).1

/-- C5: a response with no content blocks decodes to `rawValue` wrapping
the full envelope, and so does a response whose first block exposes
neither a textual nor a binary payload. -/
theorem decode_result_raw_fallback (parse : String → Option JSONVal)
    (r : CallToolResult) :
    (r.content = [] → decode_result parse r = ToolResult.rawValue r) ∧
    (∀ blk rest, r.content = blk :: rest → blk.text = none → blk.data = none →
      decode_result parse r = ToolResult.rawValue r) := by
  constructor
  · intro h
    simp [decode_result, h]
  · intro blk rest hb ht hd
    simp [decode_result, hb, ht, hd]

/-- Witness for C5: both the empty-content response and a response whose
single block has neither payload decode to `rawValue` of the envelope. -/
theorem decode_result_raw_fallback_witness :
    decode_result (fun _ => none) { content := [], isError := false } =
      ToolResult.rawValue { content := [], isError := false } ∧
    decode_result (fun _ => none)
        { content := [{ text := none, data := none, mimeType := some "application/pdf" }]
          isError := false } =
      ToolResult.rawValue
        { content := [{ text := none, data := none, mimeType := some "application/pdf" }]
          isError := false } :=
  ⟨(decode_result_raw_fallback (fun _ => none) _).1 rfl,
    (decode_result_raw_fallback (fun _ => none) _).2
      { text := none, data := none, mimeType := some "application/pdf" } [] rfl rfl rfl⟩

/-- C7: a first block with binary payload data and no textual payload
decodes to `imageValue` carrying that data and the declared MIME type,
which defaults to `image/jpeg` when the block has none. -/
theorem decode_result_image (parse : String → Option JSONVal)
    (r : CallToolResult) (blk : ContentBlock) (rest : List ContentBlock)
    (d : String)
    (hb : r.content = blk :: rest) (ht : blk.text = none)
    (hd : blk.data = some d) :
    decode_result parse r = ToolResult.imageValue d (blk.mimeType.getD "image/jpeg") ∧
    (blk.mimeType = none → decode_result parse r = ToolResult.imageValue d "image/jpeg") := by
  constructor
  · simp [decode_result, hb, ht, hd]
  · intro hm
    simp [decode_result, hb, ht, hd, hm]

/-- Witness for C7: a binary block without a MIME type decodes to an image
result with MIME type `image/jpeg`. -/
theorem decode_result_image_witness :
    decode_result (fun _ => none)
        { content := [{ text := none, data := some "aGVsbG8=", mimeType := none }]
          isError := false } =
      ToolResult.imageValue "aGVsbG8=" "image/jpeg" :=
  (decode_result_image (fun _ => none) _
      { text := none, data := some "aGVsbG8=", mimeType := none } [] "aGVsbG8="
      rfl rfl rfl).2 rfl

/-- Counterexample to C3: `_call_tool` never inspects `isError`, so a
well-formed response in which the server reports a tool-level failure
(`isError = true`, message in the first text block) is returned as a
successful `textValue` — exactly the silent conversion the claim rules
out — and is not an error of any kind. -/
theorem call_tool_isError_decoded_as_text :
    (call_tool (fun _ => none)
        { connect := ConnectOutcome.connected (some "abc")
          callTool := fun _ _ => CallOutcome.result
            { content := [{ text := some "tool failed: boom", data := none, mimeType := none }]
              isError := true }
          toolsOnServer := []
          resourcesOnServer := [] }
        (OrionMCPClient.init "http://localhost:3030") "get_release_date"
        none).2.2 =
      Except.ok (ToolResult.textValue "tool failed: boom") ∧
    ∀ e, (call_tool (fun _ => none)
        { connect := ConnectOutcome.connected (some "abc")
          callTool := fun _ _ => CallOutcome.result
            { content := [{ text := some "tool failed: boom", data := none, mimeType := none }]
              isError := true }
          toolsOnServer := []
          resourcesOnServer := [] }
        (OrionMCPClient.init "http://localhost:3030") "get_release_date"
        none).2.2 ≠ Except.error e :=
  ⟨rfl, fun _ h => Except.noConfusion h⟩

/-- C3 amended: an error raised by the session layer itself (the MCP error
carrying the message of a JSON-RPC error response) propagates to the
caller verbatim as `toolError`; a well-formed result flagged
`isError = true` is not detected and is decoded like ordinary content. -/
theorem call_tool_mcp_error_propagates (parse : String → Option JSONVal)
    (t : Transport) (self : OrionMCPClient) (tool_name : String)
    (params : Option ParamBag) (sid : Option String) (msg : String)
    (hc : t.connect = ConnectOutcome.connected sid)
    (he : t.callTool tool_name (request_data params) = CallOutcome.mcpError msg) :
    (call_tool parse t self tool_name params).2.2 =
      Except.error (CallError.toolError msg) := by
  simp [call_tool, hc, he]

/-- Witness for the amended C3: a session layer raising `Unknown tool`
surfaces as `toolError` with that message. -/
theorem call_tool_mcp_error_propagates_witness :
    (call_tool (fun _ => none)
        { connect := ConnectOutcome.connected (some "abc")
          callTool := fun _ _ => CallOutcome.mcpError "Unknown tool"
          toolsOnServer := []
          resourcesOnServer := [] }
        (OrionMCPClient.init "http://localhost:3030") "bogus_tool"
        none).2.2 =
      Except.error (CallError.toolError "Unknown tool") :=
  call_tool_mcp_error_propagates (fun _ => none) _ _ _ _ (some "abc")
    "Unknown tool" rfl rfl

/-- Counterexample to C6: two responses that agree on the content block at
index 0 (a block with neither payload) but differ in the tail decode to
different results, because the unrecognized-block fallback wraps the full
envelope, tail included. -/
theorem decode_result_depends_on_tail :
    ((CallToolResult.mk [ContentBlock.mk none none none,
        ContentBlock.mk (some "late") none none] false).content.head? =
      (CallToolResult.mk [ContentBlock.mk none none none] false).content.head?) ∧
    decode_result (fun _ => none)
        (CallToolResult.mk [ContentBlock.mk none none none,
          ContentBlock.mk (some "late") none none] false) ≠
      decode_result (fun _ => none)
        (CallToolResult.mk [ContentBlock.mk none none none] false) := by
  refine ⟨rfl, fun h => ?_⟩
  simp [decode_result] at h

/-- C6 amended: when the first content block bears a textual or a binary
payload, the decoded result depends only on that block, so any two
responses sharing it decode identically; when the first block bears
neither, the result is `rawValue` of the full envelope, which retains the
remaining blocks. -/
theorem decode_result_first_block (parse : String → Option JSONVal)
    (r r' : CallToolResult) (blk : ContentBlock)
    (h : r.content.head? = some blk) (h' : r'.content.head? = some blk) :
    (∀ txt, blk.text = some txt →
      decode_result parse r = decode_result parse r') ∧
    (blk.text = none → ∀ d, blk.data = some d →
      decode_result parse r = decode_result parse r') ∧
    (blk.text = none → blk.data = none →
      decode_result parse r = ToolResult.rawValue r) := by
  obtain ⟨tl, htl⟩ : ∃ tl, r.content = blk :: tl := by
    cases hc : r.content with
    | nil => simp [hc] at h
    | cons a tla =>
      simp [hc] at h
      exact ⟨tla, by rw [h]⟩
  obtain ⟨tl', htl'⟩ : ∃ tl2, r'.content = blk :: tl2 := by
    cases hc : r'.content with
    | nil => simp [hc] at h'
    | cons a tla =>
      simp [hc] at h'
      exact ⟨tla, by rw [h']⟩
  refine ⟨?_, ?_, ?_⟩
  · intro txt ht
    cases hp : parse txt <;> simp [decode_result, htl, htl', ht, hp]
  · intro ht d hd
    simp [decode_result, htl, htl', ht, hd]
  · intro ht hd
    simp [decode_result, htl, ht, hd]

/-- Witness for the amended C6: two responses sharing a first text block
but with different tails decode to the same `textValue`. -/
theorem decode_result_first_block_witness :
    decode_result (fun _ => none)
        (CallToolResult.mk [ContentBlock.mk (some "hello") none none,
          ContentBlock.mk (some "late") none none] false) =
      decode_result (fun _ => none)
        (CallToolResult.mk [ContentBlock.mk (some "hello") none none] false) :=
  (decode_result_first_block (fun _ => none)
      (CallToolResult.mk [ContentBlock.mk (some "hello") none none,
        ContentBlock.mk (some "late") none none] false)
      (CallToolResult.mk [ContentBlock.mk (some "hello") none none] false)
      (ContentBlock.mk (some "hello") none none)
      rfl rfl).1 "hello" rfl

/-- Counterexample to C8: `has_nightly_regressed` sends the optional
parameters `previous_nightly` and `configs` even when the caller leaves
them at their defaults (the empty string): both keys are present in the
bag, with the default value. -/
theorem has_nightly_sends_default_optionals :
    List.lookup "previous_nightly"
        (has_nightly_regressed_params "4.22.0-0.nightly-2026-01-05-203335" "" "30" "") =
      some "" ∧
    List.lookup "configs"
        (has_nightly_regressed_params "4.22.0-0.nightly-2026-01-05-203335" "" "30" "") =
      some "" := by
  exact ⟨rfl, rfl⟩

/-- C8 amended: `openshift_report_on` and `metrics_correlation` include
the optional `since` key only when the caller supplies a truthy (present
and non-empty) value, and then with that value verbatim;
`has_nightly_regressed` always includes `previous_nightly` and `configs`,
their defaults included. -/
theorem optional_params_inclusion :
    (∀ versions lookback metric config options sinceArg,
      List.lookup "since"
          (openshift_report_on_params versions lookback sinceArg metric config options) =
        (match sinceArg with
         | none => none
         | some s => if s.isEmpty then none else some s)) ∧
    (∀ metric1 metric2 config sinceArg version lookback,
      List.lookup "since"
          (metrics_correlation_params metric1 metric2 config sinceArg version lookback) =
        (match sinceArg with
         | none => none
         | some s => if s.isEmpty then none else some s)) ∧
    (∀ nightly_version previous_nightly lookback configs,
      List.lookup "previous_nightly"
          (has_nightly_regressed_params nightly_version previous_nightly lookback configs) =
        some previous_nightly ∧
      List.lookup "configs"
          (has_nightly_regressed_params nightly_version previous_nightly lookback configs) =
        some configs) := by
  refine ⟨?_, ?_, ?_⟩
  · intro versions lookback metric config options sinceArg
    cases sinceArg with
    | none => rfl
    | some s =>
      cases h : s.isEmpty <;>
        simp only [openshift_report_on_params, h, Bool.false_eq_true,
          if_true, if_false, List.lookup] <;> rfl
  · intro metric1 metric2 config sinceArg version lookback
    cases sinceArg with
    | none => rfl
    | some s =>
      cases h : s.isEmpty <;>
        simp only [metrics_correlation_params, h, Bool.false_eq_true,
          if_true, if_false, List.lookup] <;> rfl
  · intro nightly_version previous_nightly lookback configs
    exact ⟨rfl, rfl⟩

/-- C9: on a successful connection, `list_tools` and `list_resources`
succeed with descriptor lists of the same length as the server-given
collections, and the descriptor at every index copies the fields of the
server entry at the same index verbatim — so order is preserved and
nothing is deduplicated or sorted. -/
theorem discovery_preserves_order (t : Transport) (self : OrionMCPClient)
    (sid : Option String)
    (hc : t.connect = ConnectOutcome.connected sid) :
    ∃ ds rs,
      (list_tools t self).2 = Except.ok ds ∧
      (list_resources t self).2 = Except.ok rs ∧
      ds.length = t.toolsOnServer.length ∧
      rs.length = t.resourcesOnServer.length ∧
      (∀ i : Nat, ds[i]? = (t.toolsOnServer[i]?).map fun tool =>
        ToolDescriptor.mk tool.name tool.description tool.inputSchema) ∧
      (∀ i : Nat, rs[i]? = (t.resourcesOnServer[i]?).map fun r =>
        ResourceDescriptor.mk r.uri r.name r.description) := by
  refine ⟨t.toolsOnServer.map fun tool =>
      ToolDescriptor.mk tool.name tool.description tool.inputSchema,
    t.resourcesOnServer.map fun r =>
      ResourceDescriptor.mk r.uri r.name r.description,
    ?_, ?_, ?_, ?_, ?_, ?_⟩ <;>
    simp [list_tools, list_resources, hc, List.getElem?_map]

/-- Witness for C9: over a server advertising tools A, B, C, the
descriptors come back as A, B, C with fields copied verbatim. -/
theorem discovery_preserves_order_witness :
    ∃ ds rs,
      (list_tools
          { connect := ConnectOutcome.connected (some "abc")
            callTool := fun _ _ => CallOutcome.result { content := [], isError := false }
            toolsOnServer := [MCPTool.mk "A" (some "tool a") "sa",
              MCPTool.mk "B" none "sb", MCPTool.mk "C" (some "tool c") "sc"]
            resourcesOnServer := [MCPResource.mk "u1" "r1" none] }
          (OrionMCPClient.init "http://localhost:3030")).2 = Except.ok ds ∧
      (list_resources
          { connect := ConnectOutcome.connected (some "abc")
            callTool := fun _ _ => CallOutcome.result { content := [], isError := false }
            toolsOnServer := [MCPTool.mk "A" (some "tool a") "sa",
              MCPTool.mk "B" none "sb", MCPTool.mk "C" (some "tool c") "sc"]
            resourcesOnServer := [MCPResource.mk "u1" "r1" none] }
          (OrionMCPClient.init "http://localhost:3030")).2 = Except.ok rs ∧
      ds.length = 3 ∧
      rs.length = 1 ∧
      (∀ i : Nat, ds[i]? = ([MCPTool.mk "A" (some "tool a") "sa",
          MCPTool.mk "B" none "sb", MCPTool.mk "C" (some "tool c") "sc"][i]?).map
          fun tool => ToolDescriptor.mk tool.name tool.description tool.inputSchema) ∧
      (∀ i : Nat, rs[i]? = ([MCPResource.mk "u1" "r1" none][i]?).map
          fun r => ResourceDescriptor.mk r.uri r.name r.description) :=
  discovery_preserves_order
    { connect := ConnectOutcome.connected (some "abc")
      callTool := fun _ _ => CallOutcome.result { content := [], isError := false }
      toolsOnServer := [MCPTool.mk "A" (some "tool a") "sa",
        MCPTool.mk "B" none "sb", MCPTool.mk "C" (some "tool c") "sc"]
      resourcesOnServer := [MCPResource.mk "u1" "r1" none] }
    (OrionMCPClient.init "http://localhost:3030") (some "abc") rfl

/-- C10: none of the three operations changes `server_url` or `mcp_url`;
when the connection succeeds, `session_id` is set to the newly
established session's identifier (and it is assigned before the request
is sent: in `call_tool` the updated state is fixed prior to the match on
the transport's reply). -/
theorem operations_frame (parse : String → Option JSONVal) (t : Transport)
    (self : OrionMCPClient) (tool_name : String) (params : Option ParamBag) :
    (call_tool parse t self tool_name params).1.server_url = self.server_url ∧
    (call_tool parse t self tool_name params).1.mcp_url = self.mcp_url ∧
    (list_tools t self).1.server_url = self.server_url ∧
    (list_tools t self).1.mcp_url = self.mcp_url ∧
    (list_resources t self).1.server_url = self.server_url ∧
    (list_resources t self).1.mcp_url = self.mcp_url ∧
    (∀ sid, t.connect = ConnectOutcome.connected sid →
      (call_tool parse t self tool_name params).1.session_id = sid ∧
      (list_tools t self).1.session_id = sid ∧
      (list_resources t self).1.session_id = sid) := by
  cases hc : t.connect with
  | connError =>
    simp [call_tool, list_tools, list_resources, hc]
  | connected sid =>
    cases hco : t.callTool tool_name (request_data params) <;>
      simp [call_tool, list_tools, list_resources, hc, hco]

/-- Witness for C10: on a concrete connected transport all three
operations keep the endpoint fields and set `session_id` to the server's
identifier. -/
theorem operations_frame_witness :
    (call_tool (fun _ => none)
        { connect := ConnectOutcome.connected (some "sid-1")
          callTool := fun _ _ => CallOutcome.result { content := [], isError := false }
          toolsOnServer := []
          resourcesOnServer := [] }
        (OrionMCPClient.init "http://localhost:3030") "get_orion_configs"
        none).1.server_url = "http://localhost:3030" ∧
    (call_tool (fun _ => none)
        { connect := ConnectOutcome.connected (some "sid-1")
          callTool := fun _ _ => CallOutcome.result { content := [], isError := false }
          toolsOnServer := []
          resourcesOnServer := [] }
        (OrionMCPClient.init "http://localhost:3030") "get_orion_configs"
        none).1.session_id = some "sid-1" := by
  refine ⟨?_, ?_⟩
  · exact (operations_frame (fun _ => none)
      { connect := ConnectOutcome.connected (some "sid-1")
        callTool := fun _ _ => CallOutcome.result { content := [], isError := false }
        toolsOnServer := []
        resourcesOnServer := [] }
      (OrionMCPClient.init "http://localhost:3030") "get_orion_configs" none).1
  · exact ((operations_frame (fun _ => none)
      { connect := ConnectOutcome.connected (some "sid-1")
        callTool := fun _ _ => CallOutcome.result { content := [], isError := false }
        toolsOnServer := []
        resourcesOnServer := [] }
      (OrionMCPClient.init "http://localhost:3030") "get_orion_configs"
      none).2.2.2.2.2.2 (some "sid-1") rfl).1

end OrionMCP
